import Mathlib

/-!
Verification of the TrackerPro analytics engine (`analytics.py`) against its
natural-language specification.  The four dataframes of the program are
embedded as lists of records over `ℚ`; the float special values that pandas
arithmetic can produce (`inf`, `-inf`, `NaN`) are embedded by the `PdVal`
type, since several derived-metric columns observably depend on them.
Dates are embedded as integers (days since the Unix epoch), which is faithful
because the engine only compares dates, takes their maximum, subtracts day
counts, and extracts ISO calendar weeks.
-/

/-- Value of a float cell as pandas arithmetic produces it: a finite rational,
a signed infinity, or NaN (also used for the holes a left join introduces). -/
inductive PdVal where
  | val (q : ℚ)
  | posInf
  | negInf
  | nan
deriving DecidableEq, Repr

namespace PdVal

/-- IEEE-style addition on cell values (used for `likes + comments`). -/
def add : PdVal → PdVal → PdVal
  | val a, val b => val (a + b)
  | nan, _ => nan
  | _, nan => nan
  | posInf, negInf => nan
  | negInf, posInf => nan
  | posInf, _ => posInf
  | _, posInf => posInf
  | negInf, _ => negInf
  | _, negInf => negInf

/-- IEEE-style subtraction on cell values. -/
def sub : PdVal → PdVal → PdVal
  | val a, val b => val (a - b)
  | nan, _ => nan
  | _, nan => nan
  | posInf, posInf => nan
  | negInf, negInf => nan
  | posInf, _ => posInf
  | _, posInf => negInf
  | negInf, _ => negInf
  | _, negInf => posInf

/-- IEEE-style multiplication on cell values (used for the `* 100` scalings). -/
def mul : PdVal → PdVal → PdVal
  | val a, val b => val (a * b)
  | nan, _ => nan
  | _, nan => nan
  | posInf, posInf => posInf
  | posInf, negInf => negInf
  | negInf, posInf => negInf
  | negInf, negInf => posInf
  | posInf, val b => if 0 < b then posInf else if b < 0 then negInf else nan
  | val a, posInf => if 0 < a then posInf else if a < 0 then negInf else nan
  | negInf, val b => if 0 < b then negInf else if b < 0 then posInf else nan
  | val a, negInf => if 0 < a then negInf else if a < 0 then posInf else nan

/-- IEEE-style division on cell values.  Division of a nonzero finite value by
(positive) zero yields a signed infinity, `0 / 0` yields NaN; this is exactly
what a pandas float column division produces. -/
def div : PdVal → PdVal → PdVal
  | val a, val b =>
      if b = 0 then (if 0 < a then posInf else if a < 0 then negInf else nan)
      else val (a / b)
  | nan, _ => nan
  | _, nan => nan
  | posInf, posInf => nan
  | posInf, negInf => nan
  | negInf, posInf => nan
  | negInf, negInf => nan
  | posInf, val b => if b < 0 then negInf else posInf
  | negInf, val b => if b < 0 then posInf else negInf
  | val _, posInf => val 0
  | val _, negInf => val 0

/-- Series.fillna: replaces NaN by the given rational and keeps every other
value (in particular it does not touch infinities). -/
def fillna (x : PdVal) (q : ℚ) : PdVal :=
  match x with
  | nan => val q
  | x => x

/-- Comparison of a float cell against a rational constant, as a pandas boolean
mask computes it: NaN compares false, `-inf` is below every constant and
`inf` is above every constant. -/
def ltC (x : PdVal) (c : ℚ) : Bool :=
  match x with
  | val q => decide (q < c)
  | posInf => false
  | negInf => true
  | nan => false

/-- Total order used by numpy/pandas when sorting a float key column with
`na_position=last`: finite values by magnitude between the infinities, NaN
after everything. -/
def sortLe (x y : PdVal) : Bool :=
  match x, y with
  | nan, _ => match y with | nan => true | _ => false
  | _, nan => true
  | negInf, _ => true
  | _, negInf => match x with | negInf => true | _ => false
  | posInf, y => match y with | posInf => true | _ => false
  | val _, posInf => true
  | val a, val b => decide (a ≤ b)

end PdVal

/-- Row of the Influencer table (`ID, name, category, gender, follower_count,
platform`); numeric columns are embedded in `ℚ`. -/
structure Influencer where
  ID : Int
  name : String
  category : String
  gender : String
  follower_count : ℚ
  platform : String
deriving DecidableEq, Repr

/-- Row of the Post table; `url`/`caption` are carried but unused by the
engine, `date` is in epoch days. -/
structure Post where
  influencer_id : Int
  platform : String
  date : Int
  url : String
  caption : String
  reach : ℚ
  likes : ℚ
  comments : ℚ
deriving DecidableEq, Repr

/-- Row of the TrackingRecord table.  The `week` column does not exist in
caller-constructed tables (`none`); `_analyze_trends` assigns it in place on
the caller's table, which the embedding records by returning an updated
table whose rows have `week = some w`. -/
structure TrackingRecord where
  source : String
  campaign : String
  influencer_id : Int
  user_id : String
  product : String
  date : Int
  orders : ℚ
  revenue : ℚ
  week : Option Int := none
deriving DecidableEq, Repr

/-- Row of the PayoutRecord table. -/
structure PayoutRecord where
  influencer_id : Int
  basis : String
  rate : ℚ
  orders : ℚ
  total_payout : ℚ
deriving DecidableEq, Repr

/-- The four tables the data manager owns and hands to the engine. -/
structure Tables where
  influencers : List Influencer
  posts : List Post
  tracking : List TrackingRecord
  payouts : List PayoutRecord
deriving DecidableEq, Repr

/-- AnalyticsEngine.benchmark_roi (200, set in `__init__`). -/
def benchmark_roi : ℚ := 200

/-- AnalyticsEngine.benchmark_roas (4.0, set in `__init__`). -/
def benchmark_roas : ℚ := 4

/-- Sum of the `revenue` column of a tracking table. -/
def totalRevenue (tr : List TrackingRecord) : ℚ :=
  (tr.map (·.revenue)).sum

/-- Sum of `total_payout` over the payout rows whose `influencer_id` occurs in
the tracking table (the `isin(influencer_ids)` restriction of
`calculate_roi_roas`). -/
def relevantPayoutSum (tr : List TrackingRecord) (po : List PayoutRecord) : ℚ :=
  ((po.filter (fun py => tr.any (fun t => t.influencer_id == py.influencer_id))).map
      (·.total_payout)).sum

/-- Return value of `calculate_roi_roas`.  The Python function returns a dict
that lacks the `total_revenue`/`total_cost` keys on the empty-tracking early
return, which the `Option` fields record. -/
structure RoiRoasResult where
  avg_roi : ℚ
  avg_roas : ℚ
  roi_change : ℚ
  roas_change : ℚ
  total_revenue : Option ℚ
  total_cost : Option ℚ
deriving DecidableEq, Repr

/-- AnalyticsEngine.calculate_roi_roas (analytics.py lines 93-134).  The cost
branch tests `len(payouts_data) > 0`, i.e. non-emptiness of the payout table,
and the fixed-ratio fallback multiplies by the literal `0.25`. -/
def calculate_roi_roas (filtered_data : Tables) : RoiRoasResult :=
  let tracking_data := filtered_data.tracking
  let payouts_data := filtered_data.payouts
  if tracking_data.isEmpty then
    { avg_roi := 0, avg_roas := 0, roi_change := 0, roas_change := 0
      total_revenue := none, total_cost := none }
  else
    let total_revenue := totalRevenue tracking_data
    let total_cost :=
      if payouts_data.isEmpty then total_revenue * (1/4)
      else relevantPayoutSum tracking_data payouts_data
    let roi := if 0 < total_cost then (total_revenue - total_cost) / max total_cost 1 * 100 else 0
    let roas := if 0 < total_cost then total_revenue / max total_cost 1 else 0
    { avg_roi := roi, avg_roas := roas
      roi_change := roi - benchmark_roi, roas_change := roas - benchmark_roas
      total_revenue := some total_revenue, total_cost := some total_cost }

/-- Tables of the C1 counterexample: one tracking row (influencer 1, revenue
100) and one payout row for a different influencer (influencer 2). -/
def c1Tables : Tables :=
  { influencers := []
    posts := []
    tracking := [{ source := "s", campaign := "c", influencer_id := 1,
                   user_id := "u", product := "p", date := 0, orders := 1, revenue := 100 }]
    payouts := [{ influencer_id := 2, basis := "post", rate := 5, orders := 1,
                  total_payout := 7 }] }

/-- Snapshot with every table empty. -/
def emptyTables : Tables :=
  { influencers := [], posts := [], tracking := [], payouts := [] }

/-- Maximum of a list of integers (the `.max()` of a date column; only applied
to non-empty tracking tables, the `0` default is never reached there). -/
def listMaxI : List Int → Int
  | [] => 0
  | a :: as => as.foldl max a

/-- Mean of a column, `sum / count` (pandas `.mean()`; only applied to
non-empty lists by the engine). -/
def meanQ (l : List ℚ) : ℚ := l.sum / l.length

/-- Rows with `date < recent_date - baseline_period_days` in
`calculate_incremental_roas`. -/
def baselineRows (dm : Tables) (baseline_period_days : Int) : List TrackingRecord :=
  dm.tracking.filter
    (fun t => decide (t.date < listMaxI (dm.tracking.map (·.date)) - baseline_period_days))

/-- Rows with `date >= recent_date - baseline_period_days` in
`calculate_incremental_roas`. -/
def recentRows (dm : Tables) (baseline_period_days : Int) : List TrackingRecord :=
  dm.tracking.filter
    (fun t => decide (listMaxI (dm.tracking.map (·.date)) - baseline_period_days ≤ t.date))

/-- AnalyticsEngine.calculate_incremental_roas (analytics.py lines 392-424);
`timedelta(days=n)` subtraction becomes integer subtraction on epoch days. -/
def calculate_incremental_roas (data_manager : Tables)
    (baseline_period_days : Int := 30) : ℚ :=
  if data_manager.tracking.isEmpty then 0
  else
    let baseline_data := baselineRows data_manager baseline_period_days
    let recent_data := recentRows data_manager baseline_period_days
    if baseline_data.isEmpty || recent_data.isEmpty then 0
    else
      let baseline_revenue := meanQ (baseline_data.map (·.revenue))
      let recent_revenue := meanQ (recent_data.map (·.revenue))
      let incremental_revenue := recent_revenue - baseline_revenue
      let estimated_cost := recent_revenue * (1/4)
      let incremental_roas :=
        if 0 < estimated_cost then incremental_revenue / max estimated_cost 1 else 0
      max incremental_roas 0

/-- Tables for the incremental-clamp example of the spec: baseline revenue
1000 (date 0), recent revenue 800 (date 40), 30-day baseline window. -/
def c7Tables : Tables :=
  { influencers := []
    posts := []
    tracking :=
      [{ source := "s", campaign := "c", influencer_id := 1, user_id := "u",
         product := "p", date := 0, orders := 1, revenue := 1000 },
       { source := "s", campaign := "c", influencer_id := 1, user_id := "u",
         product := "p", date := 40, orders := 1, revenue := 800 }]
    payouts := [] }

/-- Ids of the influencer rows matching a boolean column predicate: the
`influencers[influencers[col] == value]['ID'].tolist()` pattern of
`apply_filters`. -/
def idsMatching (infl : List Influencer) (q : Influencer → Bool) : List Int :=
  (infl.filter q).map (·.ID)

/-- Restriction of all four tables to a list of influencer ids: the repeated
`isin(influencer_ids)` block of `apply_filters` (posts/tracking/payouts are
restricted by `influencer_id`, influencers by `ID`). -/
def restrictByIds (fd : Tables) (influencer_ids : List Int) : Tables :=
  { influencers := fd.influencers.filter (fun i => influencer_ids.contains i.ID)
    posts := fd.posts.filter (fun p => influencer_ids.contains p.influencer_id)
    tracking := fd.tracking.filter (fun t => influencer_ids.contains t.influencer_id)
    payouts := fd.payouts.filter (fun py => influencer_ids.contains py.influencer_id) }

/-- Platform filter of `apply_filters` (analytics.py lines 30-46). -/
def platformStage (platform : String) (fd : Tables) : Tables :=
  if platform ≠ "All" then
    restrictByIds fd (idsMatching fd.influencers (fun i => i.platform == platform))
  else fd

/-- Category filter of `apply_filters` (lines 49-65); it recomputes the id set
from the already platform-filtered influencer table. -/
def categoryStage (category : String) (fd : Tables) : Tables :=
  if category ≠ "All" then
    restrictByIds fd (idsMatching fd.influencers (fun i => i.category == category))
  else fd

/-- Brand/campaign filter of `apply_filters` (lines 68-71); only the tracking
table is restricted. -/
def brandStage (brand : String) (fd : Tables) : Tables :=
  if brand ≠ "All" then
    { fd with tracking := fd.tracking.filter (fun t => t.campaign == brand) }
  else fd

/-- Date filter of `apply_filters` (lines 74-88): applied only when the range
has exactly two entries, inclusive on both ends, on the posts and tracking
tables, each guarded by a non-emptiness check. -/
def dateStage (date_range : List Int) (fd : Tables) : Tables :=
  match date_range with
  | [start_date, end_date] =>
    { fd with
      posts :=
        if fd.posts.isEmpty then fd.posts
        else fd.posts.filter (fun p => decide (start_date ≤ p.date) && decide (p.date ≤ end_date))
      tracking :=
        if fd.tracking.isEmpty then fd.tracking
        else fd.tracking.filter (fun t => decide (start_date ≤ t.date) && decide (t.date ≤ end_date)) }
  | _ => fd

/-- AnalyticsEngine.apply_filters (analytics.py lines 14-90): the four stages
in source order on fresh copies of the tables (the `pd.to_datetime`
conversion on the copies is the identity in the integer-date embedding). -/
def apply_filters (data_manager : Tables) (platform brand category : String)
    (date_range : List Int) : Tables :=
  dateStage date_range (brandStage brand (categoryStage category
    (platformStage platform data_manager)))

/-- Closure property used for idempotence: every row of every table points at
an influencer id that is witnessed by an influencer row satisfying `q`. -/
def closedUnder (fd : Tables) (q : Influencer → Bool) : Prop :=
  (∀ i ∈ fd.influencers, ∃ u ∈ fd.influencers, u.ID = i.ID ∧ q u = true) ∧
  (∀ p ∈ fd.posts, ∃ u ∈ fd.influencers, u.ID = p.influencer_id ∧ q u = true) ∧
  (∀ t ∈ fd.tracking, ∃ u ∈ fd.influencers, u.ID = t.influencer_id ∧ q u = true) ∧
  (∀ py ∈ fd.payouts, ∃ u ∈ fd.influencers, u.ID = py.influencer_id ∧ q u = true)

/-- Insertion step for the ascending, duplicate-free key list that a pandas
`groupby` produces for its group keys. -/
def insKeyBy {α : Type} [DecidableEq α] (lt : α → α → Bool) (a : α) : List α → List α
  | [] => [a]
  | b :: bs => if lt a b then a :: b :: bs else if a = b then b :: bs else b :: insKeyBy lt a bs

/-- Sorted duplicate-free key list of a column, ascending in `lt` — the group
keys of `groupby` (pandas sorts group keys by default). -/
def sortedKeysBy {α : Type} [DecidableEq α] (lt : α → α → Bool) (l : List α) : List α :=
  l.foldl (fun acc a => insKeyBy lt a acc) []

def intLt (a b : Int) : Bool := decide (a < b)

/-- Group of tracking rows for one influencer: the
`tracking_data.groupby('influencer_id').agg({'revenue': 'sum', 'orders':
'sum'})` step of `get_top_performers`. -/
structure TrackGroup where
  influencer_id : Int
  revenue : ℚ
  orders : ℚ
deriving DecidableEq, Repr

def groupTracking (tr : List TrackingRecord) : List TrackGroup :=
  (sortedKeysBy intLt (tr.map (·.influencer_id))).map (fun k =>
    { influencer_id := k
      revenue := ((tr.filter (fun t => t.influencer_id == k)).map (·.revenue)).sum
      orders := ((tr.filter (fun t => t.influencer_id == k)).map (·.orders)).sum })

/-- Group of post rows for one influencer with the derived engagement rate:
the `posts_data.groupby('influencer_id')` aggregation of
`get_top_performers`, including the
`((likes + comments) / reach * 100).fillna(0)` column.  The `fillna(0)`
catches only the NaN of `0/0`; a zero-reach group with positive
likes+comments produces `inf`. -/
structure EngGroup where
  influencer_id : Int
  reach : ℚ
  likes : ℚ
  comments : ℚ
  engagement_rate : PdVal
deriving DecidableEq, Repr

def groupPosts (ps : List Post) : List EngGroup :=
  (sortedKeysBy intLt (ps.map (·.influencer_id))).map (fun k =>
    let reach := ((ps.filter (fun p => p.influencer_id == k)).map (·.reach)).sum
    let likes := ((ps.filter (fun p => p.influencer_id == k)).map (·.likes)).sum
    let comments := ((ps.filter (fun p => p.influencer_id == k)).map (·.comments)).sum
    { influencer_id := k, reach := reach, likes := likes, comments := comments
      engagement_rate :=
        (((PdVal.val (likes + comments)).div (PdVal.val reach)).mul
          (PdVal.val 100)).fillna 0 })

/-- Row of the `performance` frame of `get_top_performers` after its merges
and derived columns.  Fields that a left join can leave empty are `Option`s
(string columns) or NaN (`PdVal` float columns); `reach`, `likes`,
`comments` and `engagement_rate` exist only on the posts-non-empty path and
are NaN until that merge fills them. -/
structure PerfRow where
  influencer_id : Int
  revenue : ℚ
  orders : ℚ
  name : Option String
  platform : Option String
  category : Option String
  follower_count : PdVal
  reach : PdVal
  likes : PdVal
  comments : PdVal
  engagement_rate : PdVal
  revenue_per_follower : PdVal
  orders_per_post : PdVal
deriving DecidableEq, Repr

def mkPerfRow (g : TrackGroup) (oi : Option Influencer) : PerfRow :=
  { influencer_id := g.influencer_id
    revenue := g.revenue
    orders := g.orders
    name := oi.map (·.name)
    platform := oi.map (·.platform)
    category := oi.map (·.category)
    follower_count := match oi with | some i => .val i.follower_count | none => .nan
    reach := .nan, likes := .nan, comments := .nan, engagement_rate := .nan
    revenue_per_follower := .nan, orders_per_post := .nan }

/-- Left merge of the grouped performance with the influencer table
(`performance.merge(influencers[...], left_on='influencer_id',
right_on='ID', how='left')`): each left row is repeated once per matching
right row and kept once with NaN columns when nothing matches; left order is
preserved. -/
def mergeInflRow (infl : List Influencer) (g : TrackGroup) : List PerfRow :=
  match infl.filter (fun i => g.influencer_id == i.ID) with
  | [] => [mkPerfRow g none]
  | ms => ms.map (fun i => mkPerfRow g (some i))

def leftMergeInfluencers (infl : List Influencer) (perf : List TrackGroup) :
    List PerfRow :=
  perf.flatMap (mergeInflRow infl)

/-- Left merge of the engagement aggregation into the performance frame
(`performance.merge(engagement_metrics, on='influencer_id', how='left')`). -/
def mergeEngRow (em : List EngGroup) (r : PerfRow) : List PerfRow :=
  match em.filter (fun e2 => r.influencer_id == e2.influencer_id) with
  | [] => [r]
  | ms => ms.map (fun e2 =>
      { r with reach := .val e2.reach, likes := .val e2.likes,
               comments := .val e2.comments,
               engagement_rate := e2.engagement_rate })

def mergeEngagement (em : List EngGroup) (perf : List PerfRow) : List PerfRow :=
  perf.flatMap (mergeEngRow em)

/-- Derived columns of `get_top_performers` (lines 179-180):
`revenue_per_follower = revenue / follower_count` and
`orders_per_post = orders / performance.get('reach', 1).fillna(1)` (on the
path where the `reach` column exists). -/
def addDerived (r : PerfRow) : PerfRow :=
  { r with
    revenue_per_follower := (PdVal.val r.revenue).div r.follower_count
    orders_per_post := (PdVal.val r.orders).div (r.reach.fillna 1) }

/-- Stable insertion: the incoming element `a` is placed after every already
placed element `b` with `keepBefore b a`. -/
def stableInsert {α : Type} (keepBefore : α → α → Bool) (a : α) : List α → List α
  | [] => [a]
  | b :: bs => if keepBefore b a then b :: stableInsert keepBefore a bs else a :: b :: bs

/-- Sort by left-to-right stable insertion, used for the `sort_values`
calls.  It orders rows correctly by the sort key; rows with equal keys keep
their original relative order.  The latter matches the program only for
small sorts: `sort_values`' default `kind='quicksort'` (numpy introsort)
degrades to a stable insertion sort on partitions of at most 16 elements
but scrambles equal keys on longer partitions, so the relative order of
equal-key rows in the real program is implementation-defined beyond that.
The theorems proved about results of this sort are membership and per-row
statements that do not depend on the order of equal keys. -/
def stableSort {α : Type} (keepBefore : α → α → Bool) (l : List α) : List α :=
  l.foldl (fun acc a => stableInsert keepBefore a acc) []

/-- AnalyticsEngine.get_top_performers (analytics.py lines 136-183).  On the
empty-posts path the frame has no `reach` column, so
`performance.get('reach', 1)` returns the int `1` and the chained
`.fillna(1)` raises `AttributeError` — embedded as the `.error` branch. -/
def get_top_performers (filtered_data : Tables) (limit : Nat := 10) :
    Except String (List PerfRow) :=
  if filtered_data.tracking.isEmpty || filtered_data.influencers.isEmpty then
    .ok []
  else
    let performance := groupTracking filtered_data.tracking
    let performance := leftMergeInfluencers filtered_data.influencers performance
    if filtered_data.posts.isEmpty then
      .error "AttributeError: int object has no attribute fillna"
    else
      let engagement_metrics := groupPosts filtered_data.posts
      let performance := mergeEngagement engagement_metrics performance
      let performance := performance.map addDerived
      .ok ((stableSort (fun b a => decide (a.revenue ≤ b.revenue)) performance).take limit)

/-- Unwrapping helper for a successfully returned performer list. -/
def exOk (e : Except String (List PerfRow)) : List PerfRow :=
  match e with
  | .ok l => l
  | .error _ => []

/-- Tables triggering the empty-posts crash: one influencer, one tracking
row, no posts. -/
def c4Tables : Tables :=
  { influencers := [{ ID := 1, name := "a", category := "Fashion", gender := "F",
                      follower_count := 1000, platform := "Instagram" }]
    posts := []
    tracking := [{ source := "s", campaign := "c", influencer_id := 1, user_id := "u",
                   product := "p", date := 0, orders := 5, revenue := 100 }]
    payouts := [] }

/-- Tables for the zero-reach engagement example: influencer 1 has one post
with `reach = 0`, `likes = 5`, `comments = 3`. -/
def c9Tables : Tables :=
  { influencers := [{ ID := 1, name := "a", category := "Fashion", gender := "F",
                      follower_count := 1000, platform := "Instagram" }]
    posts := [{ influencer_id := 1, platform := "Instagram", date := 0, url := "u",
                caption := "c", reach := 0, likes := 5, comments := 3 }]
    tracking := [{ source := "s", campaign := "c", influencer_id := 1, user_id := "u",
                   product := "p", date := 0, orders := 5, revenue := 100 }]
    payouts := [] }

/-- Default row used only to name the single returned row of `c9Tables`. -/
def c9row : PerfRow :=
  (exOk (get_top_performers c9Tables 10)).headD (mkPerfRow ⟨0, 0, 0⟩ none)

/-- Lexicographic order on the `(influencer_id, name, platform)` group key of
`groupby(['influencer_id', 'name', 'platform'])`. -/
def keyLt (k1 k2 : Int × String × String) : Bool :=
  decide (k1.1 < k2.1) ||
    (decide (k1.1 = k2.1) &&
      (decide (k1.2.1 < k2.2.1) ||
        (decide (k1.2.1 = k2.2.1) && decide (k1.2.2 < k2.2.2))))

/-- One tracking row merged with the influencer table
(`tracking_data.merge(influencers, left_on='influencer_id', right_on='ID',
how='left')`): repeated per matching influencer row, one `none` row when
nothing matches. -/
def mergeTIRow (infl : List Influencer) (t : TrackingRecord) :
    List (TrackingRecord × Option Influencer) :=
  match infl.filter (fun i => t.influencer_id == i.ID) with
  | [] => [(t, none)]
  | ms => ms.map (fun i => (t, some i))

def mergeTI (dm : Tables) : List (TrackingRecord × Option Influencer) :=
  dm.tracking.flatMap (mergeTIRow dm.influencers)

/-- Group key of a merged row; `none` when the join left NaN in the
`name`/`platform` columns (pandas `groupby` drops such rows). -/
def rowKeyTI (r : TrackingRecord × Option Influencer) :
    Option (Int × String × String) :=
  r.2.map (fun i => (r.1.influencer_id, i.name, i.platform))

/-- Sorted group keys of `groupby(['influencer_id', 'name', 'platform'])` on
the merged frame, with NaN-keyed rows dropped. -/
def poorKeys (dm : Tables) : List (Int × String × String) :=
  sortedKeysBy keyLt ((mergeTI dm).filterMap rowKeyTI)

def keyRevenue (dm : Tables) (k : Int × String × String) : ℚ :=
  (((mergeTI dm).filter (fun r => rowKeyTI r == some k)).map
      (fun r => r.1.revenue)).sum

def keyOrders (dm : Tables) (k : Int × String × String) : ℚ :=
  (((mergeTI dm).filter (fun r => rowKeyTI r == some k)).map
      (fun r => r.1.orders)).sum

/-- Row of the `performance` frame of `_identify_poor_performers` (and of the
`poor_performers` result, once `reason` is filled). -/
structure PoorRow where
  influencer_id : Int
  name : String
  platform : String
  revenue : ℚ
  orders : ℚ
  cost : ℚ
  roi : PdVal
  reason : String
deriving DecidableEq, Repr

/-- Aggregated row for one group key, with
`cost = revenue * 0.25` and
`roi = ((revenue - cost) / cost * 100).fillna(0)` — note there is no
`max(cost, 1)` floor here, unlike `calculate_roi_roas`. -/
def mkPoorRow (dm : Tables) (k : Int × String × String) : PoorRow :=
  let revenue := keyRevenue dm k
  let orders := keyOrders dm k
  let cost := revenue * (1/4)
  { influencer_id := k.1, name := k.2.1, platform := k.2.2
    revenue := revenue, orders := orders, cost := cost
    roi := (((PdVal.val (revenue - cost)).div (PdVal.val cost)).mul
      (PdVal.val 100)).fillna 0
    reason := "" }

def poorPerformance (dm : Tables) : List PoorRow :=
  (poorKeys dm).map (mkPoorRow dm)

/-- AnalyticsEngine._get_poor_performance_reason (analytics.py lines
358-367), first match wins. -/
def getPoorPerformanceReason (row : PoorRow) : String :=
  if row.revenue < 1000 then "Low revenue generation"
  else if row.orders < 10 then "Low order conversion"
  else if row.roi.ltC 50 then "Very low ROI"
  else "Below benchmark ROI"

/-- AnalyticsEngine._identify_poor_performers (analytics.py lines 325-356):
merge, group, fixed-ratio roi, keep rows with `roi < 200`, attach reasons,
sort ascending by roi (stable, NaN last). -/
def identify_poor_performers (data_manager : Tables) : List PoorRow :=
  if data_manager.tracking.isEmpty || data_manager.influencers.isEmpty then []
  else
    let performance := poorPerformance data_manager
    let poor_performers := performance.filter (fun r => r.roi.ltC benchmark_roi)
    let with_reason := poor_performers.map
      (fun r => { r with reason := getPoorPerformanceReason r })
    stableSort (fun b a => PdVal.sortLe b.roi a.roi) with_reason

/-- Tables of the C5 counterexample: a single influencer whose summed revenue
is 2. -/
def c5Tables : Tables :=
  { influencers := [{ ID := 1, name := "a", category := "Fashion", gender := "F",
                      follower_count := 1000, platform := "Instagram" }]
    posts := []
    tracking := [{ source := "s", campaign := "c", influencer_id := 1, user_id := "u",
                   product := "p", date := 0, orders := 1, revenue := 2 }]
    payouts := [] }

/-- Number of influencer rows carrying exactly the id/name/platform of a
group key. -/
def matchCount (infl : List Influencer) (k : Int × String × String) : ℕ :=
  (infl.filter (fun i =>
    (i.ID == k.1) && (i.name == k.2.1) && (i.platform == k.2.2))).length

/-- Summed tracking revenue of one influencer id (the groupby-sum the claim
speaks about). -/
def sumRevFor (tr : List TrackingRecord) (id : Int) : ℚ :=
  ((tr.filter (fun t => t.influencer_id == id)).map (·.revenue)).sum

/-- Tables for the C10 witness: influencer 1 with a single zero-revenue
tracking row. -/
def c10Row : TrackingRecord :=
  { source := "s", campaign := "c", influencer_id := 1, user_id := "u",
    product := "p", date := 0, orders := 0, revenue := 0 }

def c10Tables : Tables :=
  { influencers := [{ ID := 1, name := "a", category := "Fashion", gender := "F",
                      follower_count := 1000, platform := "Instagram" }]
    posts := []
    tracking := [c10Row]
    payouts := [] }

/-- Weekday with Monday = 0 of an epoch day (1970-01-01 was a Thursday). -/
def weekdayMon0 (d : Int) : Int := Int.emod (d + 3) 7

/-- Civil year containing an epoch day (standard days-from-civil inversion,
Gregorian calendar). -/
def civilYear (z : Int) : Int :=
  let z2 := z + 719468
  let era := Int.fdiv z2 146097
  let doe := z2 - era * 146097
  let yoe := Int.fdiv (doe - Int.fdiv doe 1460 + Int.fdiv doe 36524 - Int.fdiv doe 146096) 365
  let y := yoe + era * 400
  let doy := doe - (365 * yoe + Int.fdiv yoe 4 - Int.fdiv yoe 100)
  let mp := Int.fdiv (5 * doy + 2) 153
  let m := mp + (if mp < 10 then 3 else -9)
  y + (if m ≤ 2 then 1 else 0)

/-- Epoch day of a civil date (Gregorian calendar). -/
def daysFromCivil (y m d : Int) : Int :=
  let y2 := y - (if m ≤ 2 then 1 else 0)
  let era := Int.fdiv y2 400
  let yoe := y2 - era * 400
  let mp := m + (if 2 < m then -3 else 9)
  let doy := Int.fdiv (153 * mp + 2) 5 + d - 1
  let doe := yoe * 365 + Int.fdiv yoe 4 - Int.fdiv yoe 100 + doy
  era * 146097 + doe - 719468

/-- ISO calendar week number of an epoch day
(`pd.to_datetime(...).dt.isocalendar().week`): the week of a date is the
week containing its Thursday, weeks count from the January 1st of the ISO
year of that Thursday. -/
def isoWeek (d : Int) : Int :=
  let th := d + (3 - weekdayMon0 d)
  let y := civilYear th
  Int.fdiv (th - daysFromCivil y 1 1) 7 + 1

/-- Row of a daily or weekly trend rollup (`key` is the date or the ISO week
number). -/
structure TrendRow where
  key : Int
  revenue : ℚ
  orders : ℚ
deriving DecidableEq, Repr

/-- Daily rollup of `_analyze_trends` (groupby date, summing
revenue/orders). -/
def dailyTrends (tr : List TrackingRecord) : List TrendRow :=
  (sortedKeysBy intLt (tr.map (·.date))).map (fun d =>
    { key := d
      revenue := ((tr.filter (fun t => t.date == d)).map (·.revenue)).sum
      orders := ((tr.filter (fun t => t.date == d)).map (·.orders)).sum })

/-- Weekly rollup of `_analyze_trends` on the mutated table (every row has
`week = some w` there; the `getD 0` default is unreachable on that path). -/
def weeklyTrends (tr : List TrackingRecord) : List TrendRow :=
  (sortedKeysBy intLt (tr.map (fun t => t.week.getD 0))).map (fun w =>
    { key := w
      revenue := ((tr.filter (fun t => t.week.getD 0 == w)).map (·.revenue)).sum
      orders := ((tr.filter (fun t => t.week.getD 0 == w)).map (·.orders)).sum })

structure TrendsResult where
  daily : List TrendRow
  weekly : List TrendRow
deriving DecidableEq, Repr

/-- AnalyticsEngine._analyze_trends (analytics.py lines 369-390).  The line
`data_manager.tracking_data['week'] = pd.to_datetime(...).dt.isocalendar().week`
assigns a new column on the caller-owned tracking table in place; the
embedding returns the updated state next to the result (`none` stands for
the `{}` of the early return, which happens before the mutation). -/
def analyze_trends (data_manager : Tables) : Option TrendsResult × Tables :=
  if data_manager.tracking.isEmpty then (none, data_manager)
  else
    let daily := dailyTrends data_manager.tracking
    let tracking2 := data_manager.tracking.map
      (fun t => { t with week := some (isoWeek t.date) })
    let weekly := weeklyTrends tracking2
    (some { daily := daily, weekly := weekly },
      { data_manager with tracking := tracking2 })

/-- Descending keep-order on a float sort key with NaN placed last, as
pandas `sort_values(ascending=False)` arranges it. -/
def sortDescKeep (b a : PdVal) : Bool :=
  match a, b with
  | .nan, _ => true
  | _, .nan => false
  | _, _ => PdVal.sortLe a b

structure TopInfluencersResult where
  by_revenue : List PoorRow
  by_roi : List PoorRow
deriving DecidableEq, Repr

/-- AnalyticsEngine._analyze_top_influencers (analytics.py lines 206-239):
the same merge/group/cost/roi pipeline as `_identify_poor_performers`
(the two code blocks are textually identical), then top 10 by revenue and
top 10 by roi, independently sorted descending. -/
def analyze_top_influencers (data_manager : Tables) : TopInfluencersResult :=
  if data_manager.tracking.isEmpty then { by_revenue := [], by_roi := [] }
  else
    let influencer_performance := poorPerformance data_manager
    { by_revenue := (stableSort (fun b a => decide (a.revenue ≤ b.revenue))
        influencer_performance).take 10
      by_roi := (stableSort (fun b a => sortDescKeep b.roi a.roi)
        influencer_performance).take 10 }

def strLt (a b : String) : Bool := decide (a < b)

/-- Banker's rounding of numpy/pandas `.round()`. -/
def roundHalfEven (q : ℚ) : Int :=
  let f := ⌊q⌋
  let r := q - f
  if r < 1/2 then f else if 1/2 < r then f + 1 else if f % 2 = 0 then f else f + 1

/-- Two-decimal `.round(2)`. -/
def roundQ2 (q : ℚ) : ℚ := (roundHalfEven (q * 100) : ℚ) / 100

/-- Per-platform engagement of `_analyze_platforms`
(`(likes+comments)/reach*100` with an explicit zero-reach guard). -/
def engagementByPlatform (ps : List Post) (p : String) : ℚ :=
  let rows := ps.filter (fun x => x.platform == p)
  if 0 < (rows.map (·.reach)).sum then
    ((rows.map (·.likes)).sum + (rows.map (·.comments)).sum) /
      (rows.map (·.reach)).sum * 100
  else 0

structure PlatformRow where
  platform : String
  total_revenue : ℚ
  total_orders : ℚ
  influencer_count : Nat
  avg_revenue_per_influencer : ℚ
  avg_engagement_rate : PdVal
  estimated_cost : ℚ
  avg_roi : PdVal
deriving DecidableEq, Repr

/-- AnalyticsEngine._analyze_platforms (analytics.py lines 241-284): group
the tracking-influencer merge by platform (NaN platforms of dangling
references drop out), count distinct influencers, average revenue
(rounded), engagement per platform (0 column when Post data is absent, NaN
for platforms absent from Post), fixed-ratio cost and roi. -/
def analyze_platforms (data_manager : Tables) : List PlatformRow :=
  if data_manager.tracking.isEmpty || data_manager.influencers.isEmpty then []
  else
    let merged := mergeTI data_manager
    let keys := sortedKeysBy strLt (merged.filterMap (fun r => r.2.map (·.platform)))
    keys.map (fun p =>
      let rows := merged.filter (fun r => (r.2.map (·.platform)) == some p)
      let total_revenue := (rows.map (fun r => r.1.revenue)).sum
      let total_orders := (rows.map (fun r => r.1.orders)).sum
      let influencer_count := (sortedKeysBy intLt (rows.map (fun r => r.1.influencer_id))).length
      let avg_revenue_per_influencer := roundQ2 (total_revenue / influencer_count)
      let avg_engagement_rate : PdVal :=
        if data_manager.posts.isEmpty then PdVal.val 0
        else if data_manager.posts.any (fun x => x.platform == p) then
          PdVal.val (engagementByPlatform data_manager.posts p)
        else PdVal.nan
      let estimated_cost := total_revenue * (1/4)
      let avg_roi := (((PdVal.val (total_revenue - estimated_cost)).div
        (PdVal.val estimated_cost)).mul (PdVal.val 100)).fillna 0
      { platform := p, total_revenue := total_revenue, total_orders := total_orders
        influencer_count := influencer_count
        avg_revenue_per_influencer := avg_revenue_per_influencer
        avg_engagement_rate := avg_engagement_rate
        estimated_cost := estimated_cost, avg_roi := avg_roi })

/-- Revenue-dependent columns of a category row; they exist only when the
tracking table is non-empty. -/
structure CategoryExt where
  revenue : PdVal
  orders : PdVal
  avg_revenue_per_post : PdVal
  estimated_cost : PdVal
  avg_roi : PdVal
deriving DecidableEq, Repr

structure CategoryRow where
  category : String
  total_posts : Nat
  avg_follower_count : ℚ
  total_followers : ℚ
  influencer_count : Nat
  ext : Option CategoryExt
deriving DecidableEq, Repr

/-- AnalyticsEngine._analyze_categories (analytics.py lines 286-323): group
influencers by category (count/mean/sum of follower_count, rounded to two
decimals; the `total_posts` column name actually counts influencer rows),
and, when tracking data exists, left-join per-category revenue/orders and
the fixed-ratio cost/roi (NaN-propagating for categories without tracking
rows, caught by the `fillna(0)` on the derived ratios only). -/
def analyze_categories (data_manager : Tables) : List CategoryRow :=
  if data_manager.influencers.isEmpty then []
  else
    let keys := sortedKeysBy strLt (data_manager.influencers.map (·.category))
    keys.map (fun c =>
      let rows := data_manager.influencers.filter (fun i => i.category == c)
      let total_posts := rows.length
      let avg_follower_count := roundQ2 ((rows.map (·.follower_count)).sum / rows.length)
      let total_followers := (rows.map (·.follower_count)).sum
      let influencer_count := rows.length
      let ext :=
        if data_manager.tracking.isEmpty then none
        else
          let mrows := (mergeTI data_manager).filter
            (fun r => (r.2.map (·.category)) == some c)
          let present := (mergeTI data_manager).any
            (fun r => (r.2.map (·.category)) == some c)
          let revenue : PdVal :=
            if present then .val ((mrows.map (fun r => r.1.revenue)).sum) else .nan
          let orders : PdVal :=
            if present then .val ((mrows.map (fun r => r.1.orders)).sum) else .nan
          let avg_revenue_per_post := (revenue.div (.val (total_posts : ℚ))).fillna 0
          let estimated_cost := revenue.mul (.val (1/4))
          let avg_roi := (((revenue.sub estimated_cost).div estimated_cost).mul
            (.val 100)).fillna 0
          some { revenue := revenue, orders := orders
                 avg_revenue_per_post := avg_revenue_per_post
                 estimated_cost := estimated_cost, avg_roi := avg_roi }
      { category := c, total_posts := total_posts
        avg_follower_count := avg_follower_count, total_followers := total_followers
        influencer_count := influencer_count, ext := ext })

structure Insights where
  top_influencers : TopInfluencersResult
  platform_analysis : List PlatformRow
  category_analysis : List CategoryRow
  poor_performers : List PoorRow
  trends : Option TrendsResult
deriving DecidableEq, Repr

/-- AnalyticsEngine.generate_insights (analytics.py lines 185-204): the five
sub-analyses in source order.  Only `_analyze_trends`, called last, touches
the caller's state, which the returned `Tables` records. -/
def generate_insights (data_manager : Tables) : Insights × Tables :=
  let top_influencers := analyze_top_influencers data_manager
  let platform_analysis := analyze_platforms data_manager
  let category_analysis := analyze_categories data_manager
  let poor_performers := identify_poor_performers data_manager
  let tr := analyze_trends data_manager
  ({ top_influencers := top_influencers, platform_analysis := platform_analysis
     category_analysis := category_analysis, poor_performers := poor_performers
     trends := tr.1 }, tr.2)

theorem Tables.ext1 (a b : Tables) (h1 : a.influencers = b.influencers)
    (h2 : a.posts = b.posts) (h3 : a.tracking = b.tracking)
    (h4 : a.payouts = b.payouts) : a = b := by
  cases a; cases b; simp_all

/-- C1 counterexample: in `c1Tables` no payout row matches any tracking
influencer, so by the claim the fixed-ratio fallback should apply and give
`total_cost = 100 × 0.25 = 25`; the code instead sums the empty set of
matching payouts and returns `total_cost = 0`. -/
theorem roi_roas_cost_strategy_cex :
    (¬ ∃ py ∈ c1Tables.payouts, ∃ t ∈ c1Tables.tracking,
        py.influencer_id = t.influencer_id) ∧
    (calculate_roi_roas c1Tables).total_cost = some 0 ∧
    (calculate_roi_roas c1Tables).total_revenue = some 100 ∧
    (0 : ℚ) ≠ 100 * (1/4) := by
  refine ⟨?_, by with_unfolding_all decide, by with_unfolding_all decide, by norm_num⟩
  decide

/-- C1 amended: the strategy is selected by non-emptiness of the PayoutRecord
table, not by relevance of its rows: when the payout table is non-empty,
`total_cost` is the sum of `total_payout` over the rows whose influencer
appears in the tracking table (possibly an empty sum); only when the payout
table itself is empty does `total_cost = total_revenue × 0.25`. -/
theorem roi_roas_cost_strategy_amended (fd : Tables)
    (h : fd.tracking ≠ []) :
    (fd.payouts ≠ [] →
      (calculate_roi_roas fd).total_cost =
        some (relevantPayoutSum fd.tracking fd.payouts)) ∧
    (fd.payouts = [] →
      (calculate_roi_roas fd).total_cost =
        some (totalRevenue fd.tracking * (1/4))) := by
  constructor
  · intro hp
    simp [calculate_roi_roas, List.isEmpty_iff, h, hp]
  · intro hp
    simp [calculate_roi_roas, List.isEmpty_iff, h, hp]

/-- Witness instantiating `roi_roas_cost_strategy_amended` on `c1Tables`. -/
theorem roi_roas_cost_strategy_amended_inst :
    (calculate_roi_roas c1Tables).total_cost =
      some (relevantPayoutSum c1Tables.tracking c1Tables.payouts) :=
  (roi_roas_cost_strategy_amended c1Tables (by decide)).1 (by decide)

/-- C3 counterexample: on an empty TrackingRecord table the code returns
`roi_change = 0` (not `0 − 200`), `roas_change = 0` (not `−4.0`), and the
returned dict has no `total_revenue`/`total_cost` keys at all. -/
theorem roi_roas_empty_cex :
    emptyTables.tracking = [] ∧
    (calculate_roi_roas emptyTables).roi_change = 0 ∧
    (calculate_roi_roas emptyTables).roas_change = 0 ∧
    (calculate_roi_roas emptyTables).total_revenue = none ∧
    ((0 : ℚ) ≠ -200 ∧ (0 : ℚ) ≠ -4) := by
  refine ⟨rfl, by with_unfolding_all decide, by with_unfolding_all decide,
    by with_unfolding_all decide, by norm_num, by norm_num⟩

/-- C3 amended: for an empty TrackingRecord table, `calculate_roi_roas`
returns the four-field record `{avg_roi: 0, avg_roas: 0, roi_change: 0,
roas_change: 0}` with no `total_revenue`/`total_cost` entries. -/
theorem roi_roas_empty_amended (fd : Tables) (h : fd.tracking = []) :
    calculate_roi_roas fd =
      { avg_roi := 0, avg_roas := 0, roi_change := 0, roas_change := 0
        total_revenue := none, total_cost := none } := by
  simp [calculate_roi_roas, h]

/-- Witness instantiating `roi_roas_empty_amended` on the empty snapshot. -/
theorem roi_roas_empty_amended_inst :
    calculate_roi_roas emptyTables =
      { avg_roi := 0, avg_roas := 0, roi_change := 0, roas_change := 0
        total_revenue := none, total_cost := none } :=
  roi_roas_empty_amended emptyTables rfl

/-- Mean of a non-empty list of non-negative rationals is non-negative. -/
theorem meanQ_nonneg (l : List ℚ) (h : ∀ x ∈ l, 0 ≤ x) : 0 ≤ meanQ l := by
  unfold meanQ
  apply div_nonneg (List.sum_nonneg h)
  positivity

/-- C7: `calculate_incremental_roas` returns 0 on empty tracking and on an
empty baseline or recent partition; otherwise it returns
`max 0 ((mean recent − mean baseline) / max (mean recent × 0.25) 1)`, and the
result is never negative. -/
theorem incremental_roas_spec (dm : Tables) (days : Int)
    (hnn : ∀ t ∈ dm.tracking, 0 ≤ t.revenue) :
    (dm.tracking = [] → calculate_incremental_roas dm days = 0) ∧
    (baselineRows dm days = [] ∨ recentRows dm days = [] →
      calculate_incremental_roas dm days = 0) ∧
    (baselineRows dm days ≠ [] → recentRows dm days ≠ [] →
      calculate_incremental_roas dm days =
        max 0 ((meanQ ((recentRows dm days).map (·.revenue)) -
                meanQ ((baselineRows dm days).map (·.revenue))) /
               max (meanQ ((recentRows dm days).map (·.revenue)) * (1/4)) 1)) ∧
    0 ≤ calculate_incremental_roas dm days := by
  have hrecnn : 0 ≤ meanQ ((recentRows dm days).map (·.revenue)) := by
    apply meanQ_nonneg
    intro x hx
    obtain ⟨t, ht, rfl⟩ := List.mem_map.1 hx
    exact hnn t (List.mem_of_mem_filter ht)
  have hbasenn : 0 ≤ meanQ ((baselineRows dm days).map (·.revenue)) := by
    apply meanQ_nonneg
    intro x hx
    obtain ⟨t, ht, rfl⟩ := List.mem_map.1 hx
    exact hnn t (List.mem_of_mem_filter ht)
  refine ⟨?_, ?_, ?_, ?_⟩
  · intro h
    simp [calculate_incremental_roas, h]
  · intro h
    rcases h with h | h <;> simp [calculate_incremental_roas, h]
  · intro hb hr
    unfold calculate_incremental_roas
    dsimp only
    rw [if_neg, if_neg]
    · set mr := meanQ ((recentRows dm days).map (·.revenue)) with hmr
      set mb := meanQ ((baselineRows dm days).map (·.revenue)) with hmb
      by_cases hpos : 0 < mr * (1/4)
      · rw [if_pos hpos, max_comm]
      · rw [if_neg hpos]
        have hmr0 : mr = 0 := le_antisymm (by nlinarith) (by nlinarith)
        rw [hmr0]
        have : max ((0:ℚ) * (1/4)) 1 = 1 := by norm_num
        rw [this]
        have : ((0:ℚ) - mb) / 1 = -mb := by ring
        rw [this]
        have : max (0:ℚ) (-mb) = 0 := max_eq_left (by linarith)
        rw [this]
        exact max_self 0
    · simp [hb, hr]
    · intro hc
      rw [List.isEmpty_iff] at hc
      exact hb (by simp [baselineRows] at hc ⊢; simp [hc])
  · unfold calculate_incremental_roas
    dsimp only
    split
    · exact le_refl 0
    · split
      · exact le_refl 0
      · exact le_max_right _ _

/-- Witness instantiating `incremental_roas_spec` on `c7Tables`: the formula
applies, and the negative lift (recent mean 800 vs baseline mean 1000) is
clamped to 0. -/
theorem incremental_roas_spec_inst :
    calculate_incremental_roas c7Tables 30 =
      max 0 ((meanQ ((recentRows c7Tables 30).map (·.revenue)) -
              meanQ ((baselineRows c7Tables 30).map (·.revenue))) /
             max (meanQ ((recentRows c7Tables 30).map (·.revenue)) * (1/4)) 1) ∧
    calculate_incremental_roas c7Tables 30 = 0 := by
  constructor
  · exact (incremental_roas_spec c7Tables 30 (by with_unfolding_all decide)).2.2.1
      (by with_unfolding_all decide) (by with_unfolding_all decide)
  · with_unfolding_all decide

theorem listContains_iff {l : List Int} {a : Int} : l.contains a = true ↔ a ∈ l := by
  simp [List.contains, List.elem_iff]

theorem idsMatching_mem {infl : List Influencer} {q : Influencer → Bool} {a : Int} :
    a ∈ idsMatching infl q ↔ ∃ u ∈ infl, q u = true ∧ u.ID = a := by
  simp only [idsMatching, List.mem_map, List.mem_filter]
  constructor
  · rintro ⟨u, ⟨hu, hq⟩, rfl⟩
    exact ⟨u, hu, hq, rfl⟩
  · rintro ⟨u, hu, hq, rfl⟩
    exact ⟨u, ⟨hu, hq⟩, rfl⟩

theorem closedUnder_restrict_self (fd : Tables) (q : Influencer → Bool) :
    closedUnder (restrictByIds fd (idsMatching fd.influencers q)) q := by
  have key : ∀ a : Int, (idsMatching fd.influencers q).contains a = true →
      ∃ u ∈ (restrictByIds fd (idsMatching fd.influencers q)).influencers,
        u.ID = a ∧ q u = true := by
    intro a ha
    obtain ⟨u, hu, hq, hid⟩ := idsMatching_mem.1 (listContains_iff.1 ha)
    refine ⟨u, ?_, hid, hq⟩
    simp only [restrictByIds, List.mem_filter]
    exact ⟨hu, by rw [hid]; exact ha⟩
  refine ⟨?_, ?_, ?_, ?_⟩ <;> intro x hx <;>
    exact key _ (List.mem_filter.1 hx).2

theorem closedUnder_restrict (fd : Tables) (ids : List Int) (q : Influencer → Bool)
    (h : closedUnder fd q) : closedUnder (restrictByIds fd ids) q := by
  obtain ⟨h1, h2, h3, h4⟩ := h
  have key : ∀ a : Int, ids.contains a = true →
      (∃ u ∈ fd.influencers, u.ID = a ∧ q u = true) →
      ∃ u ∈ (restrictByIds fd ids).influencers, u.ID = a ∧ q u = true := by
    rintro a ha ⟨u, hu, hid, hq⟩
    refine ⟨u, ?_, hid, hq⟩
    simp only [restrictByIds, List.mem_filter]
    exact ⟨hu, by rw [hid]; exact ha⟩
  refine ⟨?_, ?_, ?_, ?_⟩ <;> intro x hx
  · exact key _ (List.mem_filter.1 hx).2 (h1 _ (List.mem_filter.1 hx).1)
  · exact key _ (List.mem_filter.1 hx).2 (h2 _ (List.mem_filter.1 hx).1)
  · exact key _ (List.mem_filter.1 hx).2 (h3 _ (List.mem_filter.1 hx).1)
  · exact key _ (List.mem_filter.1 hx).2 (h4 _ (List.mem_filter.1 hx).1)

theorem closedUnder_sub (fd fd' : Tables) (q : Influencer → Bool)
    (hinf : fd'.influencers = fd.influencers)
    (hpo : ∀ p ∈ fd'.posts, p ∈ fd.posts)
    (htr : ∀ t ∈ fd'.tracking, t ∈ fd.tracking)
    (hpy : ∀ py ∈ fd'.payouts, py ∈ fd.payouts)
    (h : closedUnder fd q) : closedUnder fd' q := by
  obtain ⟨h1, h2, h3, h4⟩ := h
  rw [closedUnder, hinf]
  exact ⟨fun i hi => h1 i hi, fun p hp => h2 p (hpo p hp),
    fun t ht => h3 t (htr t ht), fun py hp => h4 py (hpy py hp)⟩

theorem closedUnder_categoryStage (category : String) (fd : Tables)
    (q : Influencer → Bool) (h : closedUnder fd q) :
    closedUnder (categoryStage category fd) q := by
  unfold categoryStage
  split
  · exact closedUnder_restrict fd _ q h
  · exact h

theorem brandStage_influencers (brand : String) (fd : Tables) :
    (brandStage brand fd).influencers = fd.influencers := by
  unfold brandStage; split <;> rfl

theorem brandStage_posts (brand : String) (fd : Tables) :
    (brandStage brand fd).posts = fd.posts := by
  unfold brandStage; split <;> rfl

theorem brandStage_payouts (brand : String) (fd : Tables) :
    (brandStage brand fd).payouts = fd.payouts := by
  unfold brandStage; split <;> rfl

theorem brandStage_tracking_sub (brand : String) (fd : Tables) :
    ∀ t ∈ (brandStage brand fd).tracking, t ∈ fd.tracking := by
  unfold brandStage
  split
  · intro t ht; exact (List.mem_filter.1 ht).1
  · intro t ht; exact ht

theorem dateStage_influencers (dr : List Int) (fd : Tables) :
    (dateStage dr fd).influencers = fd.influencers := by
  unfold dateStage
  split <;> rfl

theorem dateStage_payouts (dr : List Int) (fd : Tables) :
    (dateStage dr fd).payouts = fd.payouts := by
  unfold dateStage
  split <;> rfl

theorem dateStage_posts_sub (dr : List Int) (fd : Tables) :
    ∀ p ∈ (dateStage dr fd).posts, p ∈ fd.posts := by
  unfold dateStage
  split
  · intro p hp
    simp only at hp
    split at hp
    · exact hp
    · exact (List.mem_filter.1 hp).1
  · intro p hp; exact hp

theorem dateStage_tracking_sub (dr : List Int) (fd : Tables) :
    ∀ t ∈ (dateStage dr fd).tracking, t ∈ fd.tracking := by
  unfold dateStage
  split
  · intro t ht
    simp only at ht
    split at ht
    · exact ht
    · exact (List.mem_filter.1 ht).1
  · intro t ht; exact ht

theorem closedUnder_brandStage (brand : String) (fd : Tables)
    (q : Influencer → Bool) (h : closedUnder fd q) :
    closedUnder (brandStage brand fd) q := by
  refine closedUnder_sub fd (brandStage brand fd) q
    (brandStage_influencers brand fd) ?_ (brandStage_tracking_sub brand fd) ?_ h
  · rw [brandStage_posts]; exact fun p hp => hp
  · rw [brandStage_payouts]; exact fun py hp => hp

theorem closedUnder_dateStage (dr : List Int) (fd : Tables)
    (q : Influencer → Bool) (h : closedUnder fd q) :
    closedUnder (dateStage dr fd) q := by
  refine closedUnder_sub fd (dateStage dr fd) q
    (dateStage_influencers dr fd) (dateStage_posts_sub dr fd)
    (dateStage_tracking_sub dr fd) ?_ h
  rw [dateStage_payouts]; exact fun py hp => hp

/-- Closure of the fully filtered snapshot under the platform predicate. -/
theorem apply_filters_closed_platform (dm : Tables) (platform brand category : String)
    (dr : List Int) (h : platform ≠ "All") :
    closedUnder (apply_filters dm platform brand category dr)
      (fun i => i.platform == platform) := by
  unfold apply_filters
  apply closedUnder_dateStage
  apply closedUnder_brandStage
  apply closedUnder_categoryStage
  unfold platformStage
  rw [if_pos h]
  exact closedUnder_restrict_self dm _

/-- Closure of the fully filtered snapshot under the category predicate. -/
theorem apply_filters_closed_category (dm : Tables) (platform brand category : String)
    (dr : List Int) (h : category ≠ "All") :
    closedUnder (apply_filters dm platform brand category dr)
      (fun i => i.category == category) := by
  unfold apply_filters
  apply closedUnder_dateStage
  apply closedUnder_brandStage
  unfold categoryStage
  rw [if_pos h]
  exact closedUnder_restrict_self (platformStage platform dm) _

theorem restrictByIds_eq_self (fd : Tables) (ids : List Int)
    (h1 : ∀ i ∈ fd.influencers, ids.contains i.ID = true)
    (h2 : ∀ p ∈ fd.posts, ids.contains p.influencer_id = true)
    (h3 : ∀ t ∈ fd.tracking, ids.contains t.influencer_id = true)
    (h4 : ∀ py ∈ fd.payouts, ids.contains py.influencer_id = true) :
    restrictByIds fd ids = fd := by
  apply Tables.ext1 <;> simp only [restrictByIds] <;> rw [List.filter_eq_self]
  · exact h1
  · exact h2
  · exact h3
  · exact h4

theorem closedUnder_ids (fd : Tables) (q : Influencer → Bool)
    (a : Int)
    (ha : ∃ u ∈ fd.influencers, u.ID = a ∧ q u = true) :
    (idsMatching fd.influencers q).contains a = true := by
  obtain ⟨u, hu, hid, hq⟩ := ha
  exact listContains_iff.2 (idsMatching_mem.2 ⟨u, hu, hq, hid⟩)

theorem platformStage_eq_self (platform : String) (fd : Tables)
    (h : platform ≠ "All" → closedUnder fd (fun i => i.platform == platform)) :
    platformStage platform fd = fd := by
  unfold platformStage
  split
  · rename_i hp
    have hc := h hp
    obtain ⟨c1, c2, c3, c4⟩ := hc
    exact restrictByIds_eq_self fd _
      (fun i hi => closedUnder_ids fd _ _ (c1 i hi))
      (fun p hp2 => closedUnder_ids fd _ _ (c2 p hp2))
      (fun t ht => closedUnder_ids fd _ _ (c3 t ht))
      (fun py hp2 => closedUnder_ids fd _ _ (c4 py hp2))
  · rfl

theorem categoryStage_eq_self (category : String) (fd : Tables)
    (h : category ≠ "All" → closedUnder fd (fun i => i.category == category)) :
    categoryStage category fd = fd := by
  unfold categoryStage
  split
  · rename_i hp
    obtain ⟨c1, c2, c3, c4⟩ := h hp
    exact restrictByIds_eq_self fd _
      (fun i hi => closedUnder_ids fd _ _ (c1 i hi))
      (fun p hp2 => closedUnder_ids fd _ _ (c2 p hp2))
      (fun t ht => closedUnder_ids fd _ _ (c3 t ht))
      (fun py hp2 => closedUnder_ids fd _ _ (c4 py hp2))
  · rfl

theorem brandStage_eq_self (brand : String) (fd : Tables)
    (h : brand ≠ "All" → ∀ t ∈ fd.tracking, (t.campaign == brand) = true) :
    brandStage brand fd = fd := by
  unfold brandStage
  split
  · rename_i hb
    apply Tables.ext1 <;> simp only
    rw [List.filter_eq_self]
    exact h hb
  · rfl

theorem dateStage_eq_self (dr : List Int) (fd : Tables)
    (h : ∀ s e, dr = [s, e] →
      (∀ p ∈ fd.posts, (decide (s ≤ p.date) && decide (p.date ≤ e)) = true) ∧
      (∀ t ∈ fd.tracking, (decide (s ≤ t.date) && decide (t.date ≤ e)) = true)) :
    dateStage dr fd = fd := by
  unfold dateStage
  split
  · rename_i s e
    obtain ⟨hp, ht⟩ := h s e rfl
    apply Tables.ext1 <;> simp only
    · rw [List.filter_eq_self.2 hp, ite_self]
    · rw [List.filter_eq_self.2 ht, ite_self]
  · rfl

/-- Brand fact about the filtered snapshot: all surviving tracking rows match
the campaign exactly. -/
theorem apply_filters_brand (dm : Tables) (platform brand category : String)
    (dr : List Int) (h : brand ≠ "All") :
    ∀ t ∈ (apply_filters dm platform brand category dr).tracking,
      (t.campaign == brand) = true := by
  intro t ht
  unfold apply_filters at ht
  have ht2 := dateStage_tracking_sub dr _ t ht
  unfold brandStage at ht2
  rw [if_pos h] at ht2
  exact (List.mem_filter.1 ht2).2

/-- Date fact about the filtered snapshot: all surviving post/tracking rows
are inside the inclusive range. -/
theorem apply_filters_dates (dm : Tables) (platform brand category : String)
    (dr : List Int) (s e : Int) (h : dr = [s, e]) :
    (∀ p ∈ (apply_filters dm platform brand category dr).posts,
      (decide (s ≤ p.date) && decide (p.date ≤ e)) = true) ∧
    (∀ t ∈ (apply_filters dm platform brand category dr).tracking,
      (decide (s ≤ t.date) && decide (t.date ≤ e)) = true) := by
  subst h
  unfold apply_filters dateStage
  constructor
  · intro p hp
    simp only at hp
    split at hp
    · rename_i he
      rw [List.isEmpty_iff] at he
      rw [he] at hp
      exact absurd hp (List.not_mem_nil p)
    · exact (List.mem_filter.1 hp).2
  · intro t ht
    simp only at ht
    split at ht
    · rename_i he
      rw [List.isEmpty_iff] at he
      rw [he] at ht
      exact absurd ht (List.not_mem_nil t)
    · exact (List.mem_filter.1 ht).2

/-- C6: `apply_filters` is idempotent — applying the same platform, brand,
category and date-range selection a second time returns the first result
unchanged, for every input snapshot and every filter selection. -/
theorem apply_filters_idempotent (dm : Tables) (platform brand category : String)
    (date_range : List Int) :
    apply_filters (apply_filters dm platform brand category date_range)
        platform brand category date_range =
      apply_filters dm platform brand category date_range := by
  set R := apply_filters dm platform brand category date_range with hR
  have h1 : platformStage platform R = R :=
    platformStage_eq_self platform R
      (fun h => apply_filters_closed_platform dm platform brand category date_range h)
  have h2 : categoryStage category R = R :=
    categoryStage_eq_self category R
      (fun h => apply_filters_closed_category dm platform brand category date_range h)
  have h3 : brandStage brand R = R :=
    brandStage_eq_self brand R
      (fun h => apply_filters_brand dm platform brand category date_range h)
  have h4 : dateStage date_range R = R :=
    dateStage_eq_self date_range R
      (fun s e he => apply_filters_dates dm platform brand category date_range s e he)
  show dateStage date_range (brandStage brand (categoryStage category
    (platformStage platform R))) = R
  rw [h1, h2, h3, h4]

theorem mem_insKeyBy {α : Type} [DecidableEq α] {lt : α → α → Bool} {x a : α}
    {l : List α} : x ∈ insKeyBy lt a l ↔ x = a ∨ x ∈ l := by
  induction l with
  | nil => simp [insKeyBy]
  | cons b bs ih =>
    unfold insKeyBy
    split
    · simp [List.mem_cons]
    · split
      · rename_i hab
        subst hab
        simp only [List.mem_cons]
        constructor
        · intro h; exact Or.inr h
        · rintro (rfl | h)
          · exact Or.inl rfl
          · exact h
      · simp only [List.mem_cons, ih]
        constructor
        · rintro (rfl | h)
          · exact Or.inr (Or.inl rfl)
          · rcases h with rfl | h
            · exact Or.inl rfl
            · exact Or.inr (Or.inr h)
        · rintro (rfl | rfl | h)
          · exact Or.inr (Or.inl rfl)
          · exact Or.inl rfl
          · exact Or.inr (Or.inr h)

theorem mem_sortedKeysBy {α : Type} [DecidableEq α] {lt : α → α → Bool}
    {x : α} {l : List α} : x ∈ sortedKeysBy lt l ↔ x ∈ l := by
  suffices h : ∀ (l acc : List α), x ∈ l.foldl (fun acc a => insKeyBy lt a acc) acc ↔
      x ∈ l ∨ x ∈ acc by
    rw [sortedKeysBy, h]
    simp
  intro l
  induction l with
  | nil => intro acc; simp
  | cons a as ih =>
    intro acc
    rw [List.foldl_cons, ih]
    simp only [mem_insKeyBy, List.mem_cons]
    tauto

/-- C4: with non-empty TrackingRecord and Influencer tables but an empty Post
table, `get_top_performers` does not return a result at all: the
`performance.get('reach', 1).fillna(1)` expression raises AttributeError
because the frame has no `reach` column and `int` has no `fillna`. -/
theorem top_performers_empty_posts_raises :
    c4Tables.tracking ≠ [] ∧ c4Tables.influencers ≠ [] ∧ c4Tables.posts = [] ∧
    get_top_performers c4Tables 10 =
      .error "AttributeError: int object has no attribute fillna" := by
  refine ⟨by decide, by decide, rfl, by with_unfolding_all rfl⟩

/-- C9 counterexample: influencer 1 has summed reach 0 but positive
likes+comments, and the returned engagement rate is `inf`, not 0 — the
`fillna(0)` only rescues the NaN of `0/0`, not the `8/0 = inf` case. -/
theorem engagement_rate_zero_reach_cex :
    (exOk (get_top_performers c9Tables 10)).map
        (fun r => (r.reach, r.likes, r.comments, r.engagement_rate)) =
      [(PdVal.val 0, PdVal.val 5, PdVal.val 3, PdVal.posInf)] ∧
    PdVal.posInf ≠ PdVal.val 0 := by
  exact ⟨by with_unfolding_all decide, by decide⟩

theorem mem_stableInsert {α : Type} {kb : α → α → Bool} {x a : α} {l : List α} :
    x ∈ stableInsert kb a l ↔ x = a ∨ x ∈ l := by
  induction l with
  | nil => simp [stableInsert]
  | cons b bs ih =>
    unfold stableInsert
    split
    · simp only [List.mem_cons, ih]
      tauto
    · simp only [List.mem_cons]

theorem mem_stableSort {α : Type} {kb : α → α → Bool} {x : α} {l : List α} :
    x ∈ stableSort kb l ↔ x ∈ l := by
  suffices h : ∀ (l acc : List α), x ∈ l.foldl (fun acc a => stableInsert kb a acc) acc ↔
      x ∈ l ∨ x ∈ acc by
    rw [stableSort, h]; simp
  intro l
  induction l with
  | nil => intro acc; simp
  | cons a as ih =>
    intro acc
    rw [List.foldl_cons, ih]
    simp only [mem_stableInsert, List.mem_cons]
    tauto

theorem mergeInflRow_reach (infl : List Influencer) (g : TrackGroup) :
    ∀ r ∈ mergeInflRow infl g, r.reach = PdVal.nan := by
  intro r hr
  unfold mergeInflRow at hr
  split at hr
  · rcases List.mem_singleton.1 hr with rfl
    rfl
  · obtain ⟨i, _, rfl⟩ := List.mem_map.1 hr
    rfl

theorem addDerived_reach (r : PerfRow) : (addDerived r).reach = r.reach := rfl

theorem addDerived_likes (r : PerfRow) : (addDerived r).likes = r.likes := rfl

theorem addDerived_comments (r : PerfRow) : (addDerived r).comments = r.comments := rfl

theorem addDerived_rate (r : PerfRow) :
    (addDerived r).engagement_rate = r.engagement_rate := rfl

theorem groupPosts_rate (ps : List Post) (e : EngGroup) (he : e ∈ groupPosts ps) :
    e.engagement_rate =
      (((PdVal.val (e.likes + e.comments)).div (PdVal.val e.reach)).mul
        (PdVal.val 100)).fillna 0 := by
  unfold groupPosts at he
  obtain ⟨k, _, rfl⟩ := List.mem_map.1 he
  rfl

/-- Provenance of the engagement columns of a returned performer row: either
the engagement join found nothing (NaN reach) or the columns come from one
posts group. -/
theorem top_performers_engagement_src (fd : Tables) (limit : Nat) (l : List PerfRow)
    (h : get_top_performers fd limit = .ok l) :
    ∀ r ∈ l, r.reach = PdVal.nan ∨
      ∃ e ∈ groupPosts fd.posts, r.reach = PdVal.val e.reach ∧
        r.likes = PdVal.val e.likes ∧ r.comments = PdVal.val e.comments ∧
        r.engagement_rate = e.engagement_rate := by
  unfold get_top_performers at h
  split at h
  · simp only [Except.ok.injEq] at h
    subst h
    intro r hr
    exact absurd hr (List.not_mem_nil r)
  · dsimp only at h
    split at h
    · exact absurd h (by simp)
    · simp only [Except.ok.injEq] at h
      subst h
      intro r hr
      have hr2 := mem_stableSort.1 (List.mem_of_mem_take hr)
      obtain ⟨r1, hr1, rfl⟩ := List.mem_map.1 hr2
      rw [addDerived_reach, addDerived_likes, addDerived_comments, addDerived_rate]
      obtain ⟨r0, hr0, hrow⟩ := List.mem_flatMap.1 hr1
      unfold mergeEngRow at hrow
      cases hfil : (groupPosts fd.posts).filter
          (fun e2 => r0.influencer_id == e2.influencer_id) with
      | nil =>
        rw [hfil] at hrow
        dsimp only at hrow
        rcases List.mem_singleton.1 hrow with rfl
        obtain ⟨g, _, hrow0⟩ := List.mem_flatMap.1 hr0
        exact Or.inl (mergeInflRow_reach fd.influencers g r1 hrow0)
      | cons e es =>
        rw [hfil] at hrow
        dsimp only at hrow
        obtain ⟨e2, he2, rfl⟩ := List.mem_map.1 hrow
        have he2m : e2 ∈ (groupPosts fd.posts).filter
            (fun e3 => r0.influencer_id == e3.influencer_id) := by
          rw [hfil]; exact he2
        exact Or.inr ⟨e2, (List.mem_filter.1 he2m).1, rfl, rfl, rfl, rfl⟩

/-- C9 amended: in a successful `get_top_performers` result, an influencer
whose summed reach is 0 gets `engagement_rate = 0` only when the summed
likes+comments is also 0 (the `0/0 → NaN → fillna(0)` path); with positive
likes+comments and zero reach the engagement rate is `inf`, not 0. -/
theorem engagement_rate_zero_reach_amended (fd : Tables) (limit : Nat)
    (l : List PerfRow) (h : get_top_performers fd limit = .ok l) (r : PerfRow)
    (hr : r ∈ l) (hreach : r.reach = PdVal.val 0) :
    ((r.likes = PdVal.val 0 ∧ r.comments = PdVal.val 0) →
      r.engagement_rate = PdVal.val 0) ∧
    (∀ ql qc : ℚ, r.likes = PdVal.val ql → r.comments = PdVal.val qc →
      0 < ql + qc → r.engagement_rate = PdVal.posInf) := by
  rcases top_performers_engagement_src fd limit l h r hr with hnan | ⟨e, he, h1, h2, h3, h4⟩
  · rw [hnan] at hreach
    exact absurd hreach (by simp)
  · have hre : e.reach = 0 := by
      rw [h1] at hreach
      exact PdVal.val.inj hreach
    have hrate := groupPosts_rate fd.posts e he
    constructor
    · rintro ⟨hl0, hc0⟩
      have hle : e.likes = 0 := by
        rw [h2] at hl0
        exact PdVal.val.inj hl0
      have hce : e.comments = 0 := by
        rw [h3] at hc0
        exact PdVal.val.inj hc0
      rw [h4, hrate, hre, hle, hce]
      norm_num [PdVal.div, PdVal.mul, PdVal.fillna]
    · intro ql qc hql hqc hpos
      have hle : e.likes = ql := by
        rw [h2] at hql
        exact PdVal.val.inj hql
      have hce : e.comments = qc := by
        rw [h3] at hqc
        exact PdVal.val.inj hqc
      rw [h4, hrate, hre, hle, hce]
      have h100 : (0 : ℚ) < 100 := by norm_num
      simp [PdVal.div, PdVal.mul, PdVal.fillna, hpos, h100, not_lt_of_gt hpos]

set_option maxRecDepth 8192 in
/-- Witness instantiating `engagement_rate_zero_reach_amended` on `c9Tables`
(reach 0, likes 5, comments 3 gives an `inf` engagement rate). -/
theorem engagement_rate_zero_reach_amended_inst :
    c9row.engagement_rate = PdVal.posInf :=
  (engagement_rate_zero_reach_amended c9Tables 10
      (exOk (get_top_performers c9Tables 10)) (by with_unfolding_all rfl) c9row
      (by with_unfolding_all decide) (by with_unfolding_all decide)).2 5 3
    (by with_unfolding_all decide) (by with_unfolding_all decide) (by norm_num)

theorem mkPoorRow_roi_of_ne (dm : Tables) (k : Int × String × String)
    (hne : keyRevenue dm k ≠ 0) : (mkPoorRow dm k).roi = PdVal.val 300 := by
  unfold mkPoorRow
  dsimp only
  have hc : keyRevenue dm k * (1/4) ≠ 0 := by
    intro h0
    rcases mul_eq_zero.1 h0 with h | h
    · exact hne h
    · norm_num at h
  simp only [PdVal.div, if_neg hc, PdVal.mul, PdVal.fillna]
  congr 1
  field_simp
  ring

theorem mkPoorRow_roi_of_zero (dm : Tables) (k : Int × String × String)
    (h0 : keyRevenue dm k = 0) : (mkPoorRow dm k).roi = PdVal.val 0 := by
  unfold mkPoorRow
  dsimp only
  rw [h0]
  norm_num [PdVal.div, PdVal.mul, PdVal.fillna]

/-- Fixed-ratio roi of a grouped row in `_identify_poor_performers`: exactly
300 whenever the grouped revenue is nonzero, 0 (from `0/0 → NaN → fillna`)
when it is zero. -/
theorem poorPerformance_roi (dm : Tables) (r : PoorRow)
    (hr : r ∈ poorPerformance dm) :
    (r.revenue ≠ 0 → r.roi = PdVal.val 300) ∧
    (r.revenue = 0 → r.roi = PdVal.val 0) := by
  obtain ⟨k, _, rfl⟩ := List.mem_map.1 hr
  have hrev : (mkPoorRow dm k).revenue = keyRevenue dm k := rfl
  rw [hrev]
  exact ⟨mkPoorRow_roi_of_ne dm k, mkPoorRow_roi_of_zero dm k⟩

/-- Membership characterization of the poor-performer result on the non-empty
path: its rows are exactly the kept grouped rows with the reason column
attached. -/
theorem mem_identify_poor_performers (dm : Tables)
    (hne : ¬(dm.tracking.isEmpty || dm.influencers.isEmpty) = true)
    (r : PoorRow) :
    r ∈ identify_poor_performers dm ↔
      ∃ r3 ∈ poorPerformance dm, r3.roi.ltC benchmark_roi = true ∧
        r = { r3 with reason := getPoorPerformanceReason r3 } := by
  unfold identify_poor_performers
  rw [if_neg hne]
  dsimp only
  rw [mem_stableSort]
  simp only [List.mem_map, List.mem_filter]
  constructor
  · rintro ⟨r3, ⟨h3, hlt⟩, rfl⟩
    exact ⟨r3, h3, hlt, rfl⟩
  · rintro ⟨r3, h3, hlt, rfl⟩
    exact ⟨r3, ⟨h3, hlt⟩, rfl⟩

/-- C5 counterexample: with summed revenue 2, the claim's formula
`(revenue − cost) / max(cost, 1) × 100` gives `roi = 150 < 200`, so the
influencer should be flagged — but the code divides by the cost itself,
gets `roi = 300`, and returns an empty poor-performer list. -/
theorem poor_performers_roi_cex :
    ((2 - 2 * (1/4) : ℚ) / max (2 * (1/4) : ℚ) 1 * 100 < 200) ∧
    (c5Tables.tracking.map (·.revenue)).sum = 2 ∧
    identify_poor_performers c5Tables = [] := by
  refine ⟨by norm_num, by with_unfolding_all decide, by with_unfolding_all decide⟩

/-- C5 amended: the per-influencer roi of `_identify_poor_performers` is
`((revenue − cost) / cost) × 100` with no `max(cost, 1)` floor (NaN from a
zero cost becomes 0), so a group with nonzero summed revenue always has
roi = 300 and one with zero revenue has roi = 0; the result contains
exactly the grouped rows whose roi so computed is below the benchmark 200
(hence revenue 2 gives roi 300 and is not included). -/
theorem poor_performers_roi_amended (dm : Tables) (r : PoorRow)
    (hr : r ∈ poorPerformance dm)
    (hne : ¬(dm.tracking.isEmpty || dm.influencers.isEmpty) = true) :
    (r.revenue ≠ 0 → r.roi = PdVal.val 300) ∧
    (r.revenue = 0 → r.roi = PdVal.val 0) ∧
    ((∃ r2 ∈ identify_poor_performers dm, r2.influencer_id = r.influencer_id ∧
        r2.name = r.name ∧ r2.platform = r.platform) ↔
      r.roi.ltC benchmark_roi = true) := by
  obtain ⟨hroi300, hroi0⟩ := poorPerformance_roi dm r hr
  refine ⟨hroi300, hroi0, ?_⟩
  constructor
  · rintro ⟨r2, hr2, hid, hname, hplat⟩
    obtain ⟨r3, h3, hlt, rfl⟩ := (mem_identify_poor_performers dm hne r2).1 hr2
    obtain ⟨k3, _, rfl⟩ := List.mem_map.1 h3
    obtain ⟨k, hk, rfl⟩ := List.mem_map.1 hr
    have hkeq : k3 = k := by
      have e1 : k3.1 = k.1 := hid
      have e2 : k3.2.1 = k.2.1 := hname
      have e3 : k3.2.2 = k.2.2 := hplat
      exact Prod.ext e1 (Prod.ext e2 e3)
    rw [hkeq] at hlt
    exact hlt
  · intro hlt
    refine ⟨{ r with reason := getPoorPerformanceReason r }, ?_, rfl, rfl, rfl⟩
    exact (mem_identify_poor_performers dm hne _).2 ⟨r, hr, hlt, rfl⟩

/-- Witness instantiating `poor_performers_roi_amended` on `c5Tables`: the
revenue-2 group has roi 300 and no matching row in the returned poor
performers. -/
theorem poor_performers_roi_amended_inst :
    ((poorPerformance c5Tables).headD (mkPoorRow c5Tables (1, "a", "Instagram"))).roi =
      PdVal.val 300 := by
  have hmem : (poorPerformance c5Tables).headD
      (mkPoorRow c5Tables (1, "a", "Instagram")) ∈ poorPerformance c5Tables := by
    with_unfolding_all decide
  exact (poor_performers_roi_amended c5Tables _ hmem (by with_unfolding_all decide)).1
    (by with_unfolding_all decide)

theorem sum_map_const {α : Type} (l : List α) (c : ℚ) :
    (l.map (fun _ => c)).sum = l.length * c := by
  induction l with
  | nil => simp
  | cons a as ih =>
    simp only [List.map_cons, List.sum_cons, List.length_cons, ih]
    push_cast
    ring

theorem mergeTIRow_block (infl : List Influencer) (t : TrackingRecord)
    (k : Int × String × String) :
    (((mergeTIRow infl t).filter (fun r => rowKeyTI r == some k)).map
        (fun r => r.1.revenue)).sum =
      if t.influencer_id = k.1 then (matchCount infl k : ℚ) * t.revenue else 0 := by
  unfold mergeTIRow
  cases hfil : infl.filter (fun i => t.influencer_id == i.ID) with
  | nil =>
    dsimp only
    rw [List.filter_eq_nil_iff] at hfil
    have hL : (([((t : TrackingRecord), (none : Option Influencer))]).filter
        (fun r => rowKeyTI r == some k)) = [] := by
      simp [rowKeyTI]
    rw [hL]
    simp only [List.map_nil, List.sum_nil]
    split
    · rename_i ht
      have hm : matchCount infl k = 0 := by
        unfold matchCount
        rw [List.length_eq_zero, List.filter_eq_nil_iff]
        intro i hi
        intro hcontra
        simp only [Bool.and_eq_true, beq_iff_eq] at hcontra
        apply hfil i hi
        simp only [beq_iff_eq]
        exact ht.trans hcontra.1.1.symm
      rw [hm]
      norm_num
    · rfl
  | cons i0 is =>
    dsimp only
    have hrows : ((i0 :: is).map (fun i => ((t : TrackingRecord), some i))).filter
        (fun r => rowKeyTI r == some k) =
        ((i0 :: is).filter (fun i =>
          ((t.influencer_id, i.name, i.platform) : Int × String × String) == k)).map
          (fun i => (t, some i)) := by
      rw [List.filter_map]
      congr 1
    rw [hrows, List.map_map]
    have hconst : ((i0 :: is).filter (fun i =>
        ((t.influencer_id, i.name, i.platform) : Int × String × String) == k)).map
        ((fun r : TrackingRecord × Option Influencer => r.1.revenue) ∘
          (fun i => (t, some i))) =
        ((i0 :: is).filter (fun i =>
          ((t.influencer_id, i.name, i.platform) : Int × String × String) == k)).map
          (fun _ => t.revenue) := by
      apply List.map_congr_left
      intro i _
      rfl
    rw [hconst, sum_map_const]
    rw [← hfil, List.filter_filter]
    split
    · rename_i ht
      have hpred : ∀ i ∈ infl,
          ((((t.influencer_id, i.name, i.platform) : Int × String × String) == k) &&
            (t.influencer_id == i.ID)) =
          ((i.ID == k.1) && (i.name == k.2.1) && (i.platform == k.2.2)) := by
        intro i _
        apply Bool.eq_iff_iff.mpr
        simp only [Bool.and_eq_true, beq_iff_eq, Prod.ext_iff]
        constructor
        · rintro ⟨⟨e1, e2, e3⟩, e4⟩
          exact ⟨⟨e4.symm.trans e1, e2⟩, e3⟩
        · rintro ⟨⟨f1, f2⟩, f3⟩
          exact ⟨⟨ht, f2, f3⟩, ht.trans f1.symm⟩
      rw [List.filter_congr hpred]
      rfl
    · rename_i ht
      have hnone : infl.filter (fun i =>
          ((((t.influencer_id, i.name, i.platform) : Int × String × String) == k) &&
            (t.influencer_id == i.ID))) = [] := by
        rw [List.filter_eq_nil_iff]
        intro i _
        simp only [Bool.and_eq_true, beq_iff_eq, Prod.ext_iff, not_and]
        intro hc
        exact absurd hc.1 ht
      rw [hnone]
      simp

theorem keyRevenue_eq (dm : Tables) (k : Int × String × String) :
    keyRevenue dm k = (matchCount dm.influencers k : ℚ) * sumRevFor dm.tracking k.1 := by
  unfold keyRevenue mergeTI
  induction dm.tracking with
  | nil => simp [sumRevFor]
  | cons t ts ih =>
    rw [List.flatMap_cons, List.filter_append, List.map_append, List.sum_append, ih,
      mergeTIRow_block]
    unfold sumRevFor
    by_cases ht : t.influencer_id = k.1
    · rw [if_pos ht]
      rw [List.filter_cons_of_pos (by simp [ht]), List.map_cons, List.sum_cons]
      ring
    · rw [if_neg ht]
      rw [List.filter_cons_of_neg (by simp [ht])]
      ring

theorem mem_mergeTIRow_some (infl : List Influencer) (t : TrackingRecord)
    (i : Influencer) (hi : i ∈ infl) (hid : i.ID = t.influencer_id) :
    (t, some i) ∈ mergeTIRow infl t := by
  unfold mergeTIRow
  have hmem : i ∈ infl.filter (fun i2 => t.influencer_id == i2.ID) :=
    List.mem_filter.2 ⟨hi, by simp [hid]⟩
  cases hfil : infl.filter (fun i2 => t.influencer_id == i2.ID) with
  | nil =>
    rw [hfil] at hmem
    exact absurd hmem (List.not_mem_nil i)
  | cons i0 is =>
    rw [hfil] at hmem
    exact List.mem_map_of_mem _ hmem

theorem mem_poorKeys (dm : Tables) (k : Int × String × String) :
    k ∈ poorKeys dm ↔ ∃ t ∈ dm.tracking, ∃ i ∈ dm.influencers,
      i.ID = t.influencer_id ∧ k = (t.influencer_id, i.name, i.platform) := by
  unfold poorKeys
  rw [mem_sortedKeysBy, List.mem_filterMap]
  constructor
  · rintro ⟨r, hr, hkey⟩
    obtain ⟨t, ht, hrow⟩ := List.mem_flatMap.1 hr
    unfold mergeTIRow at hrow
    cases hfil : dm.influencers.filter (fun i => t.influencer_id == i.ID) with
    | nil =>
      rw [hfil] at hrow
      dsimp only at hrow
      rcases List.mem_singleton.1 hrow with rfl
      simp [rowKeyTI] at hkey
    | cons i0 is =>
      rw [hfil] at hrow
      dsimp only at hrow
      obtain ⟨i, hi, rfl⟩ := List.mem_map.1 hrow
      have hi2 : i ∈ dm.influencers.filter (fun i2 => t.influencer_id == i2.ID) := by
        rw [hfil]; exact hi
      obtain ⟨hiin, hbeq⟩ := List.mem_filter.1 hi2
      have hkey2 : (t.influencer_id, i.name, i.platform) = k := by
        simpa [rowKeyTI] using hkey
      refine ⟨t, ht, i, hiin, ?_, hkey2.symm⟩
      rw [beq_iff_eq] at hbeq
      exact hbeq.symm
  · rintro ⟨t, ht, i, hi, hid, rfl⟩
    refine ⟨(t, some i), List.mem_flatMap.2 ⟨t, ht, mem_mergeTIRow_some dm.influencers t i hi hid⟩, rfl⟩

theorem matchCount_pos (dm : Tables) (k : Int × String × String)
    (hk : k ∈ poorKeys dm) : 0 < matchCount dm.influencers k := by
  obtain ⟨t, _, i, hi, hid, rfl⟩ := (mem_poorKeys dm k).1 hk
  unfold matchCount
  apply List.length_pos_of_mem (a := i)
  apply List.mem_filter.2
  refine ⟨hi, ?_⟩
  simp [hid]

/-- C10: under the data-model invariant that every tracking influencer_id has
an Influencer row, the poor-performer list contains exactly the influencers
whose summed revenue is 0, each with roi 0 and reason "Low revenue
generation" (every group with nonzero revenue has roi exactly 300 and is
never flagged). -/
theorem poor_performers_exactly_zero_revenue (dm : Tables)
    (hmatch : ∀ t ∈ dm.tracking, ∃ i ∈ dm.influencers, i.ID = t.influencer_id) :
    (∀ r ∈ identify_poor_performers dm,
      r.roi = PdVal.val 0 ∧ r.reason = "Low revenue generation" ∧
        sumRevFor dm.tracking r.influencer_id = 0) ∧
    (∀ id : Int, (∃ r ∈ identify_poor_performers dm, r.influencer_id = id) ↔
      ((∃ t ∈ dm.tracking, t.influencer_id = id) ∧ sumRevFor dm.tracking id = 0)) := by
  by_cases hne : (dm.tracking.isEmpty || dm.influencers.isEmpty) = true
  · have hres : identify_poor_performers dm = [] := by
      unfold identify_poor_performers
      rw [if_pos hne]
    constructor
    · intro r hr
      rw [hres] at hr
      exact absurd hr (List.not_mem_nil r)
    · intro id
      constructor
      · rintro ⟨r, hr, _⟩
        rw [hres] at hr
        exact absurd hr (List.not_mem_nil r)
      · rintro ⟨⟨t, ht, _⟩, _⟩
        rcases Bool.or_eq_true_iff.1 hne with he | he
        · rw [List.isEmpty_iff] at he
          rw [he] at ht
          exact absurd ht (List.not_mem_nil t)
        · obtain ⟨i, hi, _⟩ := hmatch t ht
          rw [List.isEmpty_iff] at he
          rw [he] at hi
          exact absurd hi (List.not_mem_nil i)
  · have hpartA : ∀ r ∈ identify_poor_performers dm,
        r.roi = PdVal.val 0 ∧ r.reason = "Low revenue generation" ∧
          sumRevFor dm.tracking r.influencer_id = 0 ∧
          ∃ t ∈ dm.tracking, t.influencer_id = r.influencer_id := by
      intro r hr
      obtain ⟨r3, h3, hlt, rfl⟩ := (mem_identify_poor_performers dm hne r).1 hr
      obtain ⟨h300, h0⟩ := poorPerformance_roi dm r3 h3
      by_cases hz : r3.revenue = 0
      · have hroi := h0 hz
        obtain ⟨k, hk, rfl⟩ := List.mem_map.1 h3
        have hrevk : keyRevenue dm k = 0 := hz
        have hsum : sumRevFor dm.tracking k.1 = 0 := by
          rw [keyRevenue_eq] at hrevk
          rcases mul_eq_zero.1 hrevk with h | h
          · exfalso
            have := matchCount_pos dm k hk
            rw [Nat.cast_eq_zero] at h
            omega
          · exact h
        obtain ⟨t, ht, i, _, _, hkeq⟩ := (mem_poorKeys dm k).1 hk
        refine ⟨hroi, ?_, hsum, t, ht, ?_⟩
        · show getPoorPerformanceReason (mkPoorRow dm k) = "Low revenue generation"
          unfold getPoorPerformanceReason
          rw [if_pos]
          show (mkPoorRow dm k).revenue < 1000
          show keyRevenue dm k < 1000
          rw [hrevk]
          norm_num
        · show t.influencer_id = (mkPoorRow dm k).influencer_id
          rw [hkeq]
          rfl
      · have hroi := h300 hz
        rw [hroi] at hlt
        norm_num [PdVal.ltC, benchmark_roi] at hlt
    refine ⟨fun r hr => ⟨(hpartA r hr).1, (hpartA r hr).2.1, (hpartA r hr).2.2.1⟩, ?_⟩
    intro id
    constructor
    · rintro ⟨r, hr, rfl⟩
      obtain ⟨_, _, hsum, t, ht, htid⟩ := hpartA r hr
      exact ⟨⟨t, ht, htid⟩, hsum⟩
    · rintro ⟨⟨t, ht, htid⟩, hsum⟩
      obtain ⟨i, hi, hiid⟩ := hmatch t ht
      have hk : (t.influencer_id, i.name, i.platform) ∈ poorKeys dm :=
        (mem_poorKeys dm _).2 ⟨t, ht, i, hi, hiid, rfl⟩
      have hr3 : mkPoorRow dm (t.influencer_id, i.name, i.platform) ∈ poorPerformance dm :=
        List.mem_map_of_mem _ hk
      have hrev0 : keyRevenue dm (t.influencer_id, i.name, i.platform) = 0 := by
        rw [keyRevenue_eq]
        show ((matchCount dm.influencers _ : ℚ)) * sumRevFor dm.tracking t.influencer_id = 0
        rw [htid, hsum, mul_zero]
      have hroi := mkPoorRow_roi_of_zero dm _ hrev0
      have hlt : (mkPoorRow dm (t.influencer_id, i.name, i.platform)).roi.ltC
          benchmark_roi = true := by
        rw [hroi]
        norm_num [PdVal.ltC, benchmark_roi]
      refine ⟨{ mkPoorRow dm (t.influencer_id, i.name, i.platform) with
        reason := getPoorPerformanceReason (mkPoorRow dm (t.influencer_id, i.name, i.platform)) },
        (mem_identify_poor_performers dm hne _).2 ⟨_, hr3, hlt, rfl⟩, htid⟩

/-- Witness instantiating `poor_performers_exactly_zero_revenue` on
`c10Tables`: influencer 1 has summed revenue 0 and is returned. -/
theorem poor_performers_exactly_zero_revenue_inst :
    ∃ r ∈ identify_poor_performers c10Tables, r.influencer_id = 1 :=
  ((poor_performers_exactly_zero_revenue c10Tables (by with_unfolding_all decide)).2 1).2
    ⟨⟨c10Row, by with_unfolding_all decide, rfl⟩, by with_unfolding_all decide⟩

/-- C2: `_analyze_trends` (and therefore `generate_insights`) does not leave
the caller-owned tables unchanged: on any snapshot with a non-empty
tracking table it assigns a `week` column to the caller's tracking table in
place.  Evaluated on `c10Tables` (one tracking row dated 1970-01-01, ISO
week 1). -/
theorem analyze_trends_mutates_tracking :
    ((analyze_trends c10Tables).2).tracking =
      [{ c10Row with week := some (isoWeek 0) }] ∧
    isoWeek 0 = 1 ∧
    ((analyze_trends c10Tables).2).tracking ≠ c10Tables.tracking ∧
    ((generate_insights c10Tables).2).tracking ≠ c10Tables.tracking := by
  refine ⟨by with_unfolding_all rfl, by with_unfolding_all decide,
    by with_unfolding_all decide, by with_unfolding_all decide⟩
